import Mathlib

/-!
Verification development for the portfolio-website repository.

Shallow embedding of the two source files:
* `resize_portfolio_images.py` — the batch image resizer (crop/padding math
  over exact rationals, a functional filesystem model for the batch driver);
* `home/views.py` — the Django view functions, in particular `contact`.

Python float arithmetic in the resizer is modelled by exact rational
arithmetic (`ℚ`); Python `int()` truncation is `pyTrunc`; Python `//` floor
division on integers is `Int.fdiv`.
-/

/-- A decoded PIL image: geometric size and color mode.  Pixel data is not
relevant to any property proved below: `Image.resize` and `Image.crop` act on
the size and keep the mode, `Image.convert` acts on the mode. -/
structure PILImage where
  width : Nat
  height : Nat
  mode : String
deriving DecidableEq

/-- Python `int()` applied to an exact (nonnegative or negative) rational:
truncation toward zero. -/
def pyTrunc (q : ℚ) : ℤ := if q < 0 then ⌈q⌉ else ⌊q⌋

/-- `img_ratio = img.width / img.height` (lines 34 and 65 of the script). -/
def imgAspect (img : PILImage) : ℚ := (img.width : ℚ) / (img.height : ℚ)

/-- `target_ratio = target_size[0] / target_size[1]` (lines 35 and 66). -/
def targetAspect (target_size : Nat × Nat) : ℚ :=
  (target_size.1 : ℚ) / (target_size.2 : ℚ)

/-- The `(new_width, new_height)` passed to `img.resize` in crop mode
(lines 37–54): wider-than-target images scale to the target height,
others scale to the target width. -/
def cropScaledSize (img : PILImage) (target_size : Nat × Nat) : Nat × Nat :=
  if imgAspect img > targetAspect target_size then
    ((pyTrunc ((target_size.2 : ℚ) * imgAspect img)).toNat, target_size.2)
  else
    (target_size.1, (pyTrunc ((target_size.1 : ℚ) / imgAspect img)).toNat)

/-- The `(left, top, right, bottom)` box passed to `resized.crop`
(lines 43–62); Python `//` is floor division `Int.fdiv`. -/
def cropBox (img : PILImage) (target_size : Nat × Nat) : ℤ × ℤ × ℤ × ℤ :=
  let ns := cropScaledSize img target_size
  if imgAspect img > targetAspect target_size then
    (Int.fdiv ((ns.1 : ℤ) - (target_size.1 : ℤ)) 2, 0,
     Int.fdiv ((ns.1 : ℤ) - (target_size.1 : ℤ)) 2 + (target_size.1 : ℤ),
     (target_size.2 : ℤ))
  else
    (0, Int.fdiv ((ns.2 : ℤ) - (target_size.2 : ℤ)) 2, (target_size.1 : ℤ),
     Int.fdiv ((ns.2 : ℤ) - (target_size.2 : ℤ)) 2 + (target_size.2 : ℤ))

/-- `final_img = resized.crop((left, top, right, bottom))`: a PIL crop of box
`(l, t, r, b)` yields an image of size `(r - l, b - t)`, same mode. -/
def cropModeImage (img : PILImage) (target_size : Nat × Nat) : PILImage :=
  let b := cropBox img target_size
  { width := (b.2.2.1 - b.1).toNat
    height := (b.2.2.2 - b.2.1).toNat
    mode := img.mode }

/-- Observer: pixels trimmed off the left edge by the crop,
`left - 0` of the crop box. -/
def cropLeftMargin (img : PILImage) (target_size : Nat × Nat) : ℤ :=
  (cropBox img target_size).1

/-- Observer: pixels trimmed off the top edge by the crop. -/
def cropTopMargin (img : PILImage) (target_size : Nat × Nat) : ℤ :=
  (cropBox img target_size).2.1

/-- Observer: pixels trimmed off the right edge by the crop,
`new_width - right` of the crop box. -/
def cropRightMargin (img : PILImage) (target_size : Nat × Nat) : ℤ :=
  ((cropScaledSize img target_size).1 : ℤ) - (cropBox img target_size).2.2.1

/-- Observer: pixels trimmed off the bottom edge by the crop,
`new_height - bottom` of the crop box. -/
def cropBottomMargin (img : PILImage) (target_size : Nat × Nat) : ℤ :=
  ((cropScaledSize img target_size).2 : ℤ) - (cropBox img target_size).2.2.2

/-- Padding mode (lines 63–88): `final_img = Image.new('RGB', target_size,
(255, 255, 255))` with the scaled image pasted centered onto it; the result
has exactly the target size and mode RGB.  (The paste offset affects only
pixel content, which is not modelled.) -/
def padModeImage (_img : PILImage) (target_size : Nat × Nat) : PILImage :=
  { width := target_size.1, height := target_size.2, mode := "RGB" }

/-- `img.mode in ('RGBA', 'LA', 'P')` conversion target (lines 29–30):
only these three modes are converted to RGB. -/
def convertMode (m : String) : String :=
  if m ∈ ["RGBA", "LA", "P"] then "RGB" else m

/-- Lines 29–30: `if img.mode in ('RGBA', 'LA', 'P'): img = img.convert('RGB')`. -/
def convertPIL (img : PILImage) : PILImage :=
  if img.mode ∈ ["RGBA", "LA", "P"] then { img with mode := "RGB" } else img

/-- Contents of a file in the modelled filesystem: either an image file
(decodable by PIL, carrying the stored format and JPEG quality) or an
unreadable/corrupt file. -/
inductive FileData where
  | image (img : PILImage) (format : String) (quality : Option Nat)
  | corrupt (tag : Nat)
deriving DecidableEq

/-- A filesystem entry: a directory or a file. -/
inductive Entry where
  | dir
  | file (d : FileData)
deriving DecidableEq

/-- The filesystem: a partial map from path strings to entries. -/
def FS : Type := String → Option Entry

/-- Writing entry `e` at path `p`. -/
def fsUpdate (fs : FS) (p : String) (e : Entry) : FS :=
  fun q => if q = p then some e else fs q

/-- `os.path.exists`. -/
def pathExists (fs : FS) (p : String) : Bool := (fs p).isSome

/-- `os.path.isfile`. -/
def isFile (fs : FS) (p : String) : Bool :=
  match fs p with
  | some (Entry.file _) => true
  | _ => false

/-- `os.makedirs(p, exist_ok=True)`: creates the directory when absent,
no-op when present. -/
def makedirs (fs : FS) (p : String) : FS :=
  if pathExists fs p then fs else fsUpdate fs p Entry.dir

/-- `shutil.copy2(src, dst)`: copies the file contents byte-for-byte.  (In
the script it is only called after an `os.path.isfile` check on `src`, so
the `none` case is unreachable there.) -/
def copy2 (fs : FS) (src dst : String) : FS :=
  match fs src with
  | some e => fsUpdate fs dst e
  | none => fs

/-- Index of the last `'.'` in a character list (Python `s.rfind('.')`,
as used by `os.path.splitext`). -/
def lastDotIdx : List Char → Option Nat
  | [] => none
  | c :: cs =>
    match lastDotIdx cs with
    | some i => some (i + 1)
    | none => if c = '.' then some 0 else none

/-- `os.path.splitext` on a bare filename (no path separator, as returned by
`os.listdir`): splits at the last dot unless every character before it is a
dot (leading dots do not start an extension). -/
def splitext (s : String) : String × String :=
  match lastDotIdx s.data with
  | none => (s, "")
  | some i =>
    if (s.data.take i).any (fun c => c ≠ '.') then
      (String.mk (s.data.take i), String.mk (s.data.drop i))
    else (s, "")

/-- Python `str.lower()`: character-wise lowercasing. -/
def pyLower (s : String) : String := String.mk (s.data.map Char.toLower)

/-- Python `str.endswith(t)`: `t` is a suffix of `s`. -/
def pyEndsWith (s t : String) : Bool := List.isSuffixOf t.data s.data

/-- `os.path.join` for a relative second component: `a + "/" + b`. -/
def joinPath (a b : String) : String := a ++ "/" ++ b

/-- The recognized extension set (line 129). -/
def image_extensions : List String := [".jpg", ".jpeg", ".png", ".bmp", ".tiff", ".webp"]

/-- Format chosen at save time from the output filename (lines 91–94). -/
def savedFormat (output_path : String) : String :=
  if pyEndsWith (pyLower output_path) ".jpg" || pyEndsWith (pyLower output_path) ".jpeg" then
    "JPEG"
  else "PNG"

/-- JPEG quality recorded at save time (`quality=quality` on the JPEG branch,
not applicable on the PNG branch). -/
def savedQuality (output_path : String) (quality : Nat) : Option Nat :=
  if pyEndsWith (pyLower output_path) ".jpg" || pyEndsWith (pyLower output_path) ".jpeg" then
    some quality
  else none

/-- `final_img.save(output_path, ...)` (lines 91–94). -/
def saveImg (fs : FS) (output_path : String) (img : PILImage) (quality : Nat) : FS :=
  fsUpdate fs output_path
    (Entry.file (FileData.image img (savedFormat output_path) (savedQuality output_path quality)))

/-- The success message printed on line 96. -/
def okMsg (input_path output_path : String) (target_size : Nat × Nat) : String :=
  "✓ Resized " ++ input_path ++ " to " ++ toString target_size.1 ++ "x" ++
    toString target_size.2 ++ " -> " ++ output_path

/-- The body of the `try:` block of `resize_image` (lines 27–96).  A raised
exception is an `Except.error` carrying the exception text: opening a missing
path, an unreadable file or a directory fails, and the two float divisions
raise `ZeroDivisionError` on zero denominators exactly where the script
would. -/
def resize_image_body (fs : FS) (input_path output_path : String)
    (target_size : Nat × Nat) (quality : Nat) (crop_mode : Bool) :
    Except String (FS × String) :=
  match fs input_path with
  | none => Except.error ("No such file or directory: " ++ input_path)
  | some Entry.dir => Except.error ("IsADirectoryError: " ++ input_path)
  | some (Entry.file (FileData.corrupt _)) =>
    Except.error ("cannot identify image file " ++ input_path)
  | some (Entry.file (FileData.image img0 _ _)) =>
    -- lines 29–30: convert to RGB if necessary
    let img : PILImage := convertPIL img0
    if crop_mode then
      -- line 34: `img.width / img.height` raises on zero height
      if img.height = 0 then Except.error "division by zero"
      -- line 35: `target_size[0] / target_size[1]` raises on zero height
      else if target_size.2 = 0 then Except.error "division by zero"
      else if imgAspect img > targetAspect target_size then
        Except.ok (saveImg fs output_path (cropModeImage img target_size) quality,
          okMsg input_path output_path target_size)
      -- line 53: `target_size[0] / img_ratio` raises on zero ratio
      else if img.width = 0 then Except.error "float division by zero"
      else
        Except.ok (saveImg fs output_path (cropModeImage img target_size) quality,
          okMsg input_path output_path target_size)
    else
      if img.height = 0 then Except.error "division by zero"
      else if target_size.2 = 0 then Except.error "division by zero"
      else
        Except.ok (saveImg fs output_path (padModeImage img target_size) quality,
          okMsg input_path output_path target_size)

/-- The error message printed on line 99. -/
def errMsg (input_path e : String) : String :=
  "✗ Error processing " ++ input_path ++ ": " ++ e

/-- `resize_image` (lines 15–99): the whole body is wrapped in
`try: ... except Exception as e:` which prints the error (line 99) and
returns normally.  The second component is the list of lines printed. -/
def resize_image (fs : FS) (input_path output_path : String)
    (target_size : Nat × Nat) (quality : Nat) (crop_mode : Bool) :
    FS × List String :=
  match resize_image_body fs input_path output_path target_size quality crop_mode with
  | Except.ok (fs2, msg) => (fs2, [msg])
  | Except.error e => (fs, [errMsg input_path e])

/-- `<dir>/backup_original/<filename>` (lines 116, 144). -/
def backupPath (portfolio_dir filename : String) : String :=
  joinPath (joinPath portfolio_dir "backup_original") filename

/-- `f"{base_name}_preview{ext}"` (line 155). -/
def previewName (filename : String) : String :=
  (splitext filename).1 ++ "_preview" ++ (splitext filename).2

/-- `<dir>/preview/<base>_preview<ext>` (lines 121, 156). -/
def previewPath (portfolio_dir filename : String) : String :=
  joinPath (joinPath portfolio_dir "preview") (previewName filename)

/-- `f"{base_name}_slider{ext}"` (line 160). -/
def sliderName (filename : String) : String :=
  (splitext filename).1 ++ "_slider" ++ (splitext filename).2

/-- `<dir>/slider/<base>_slider<ext>` (lines 122, 161). -/
def sliderPath (portfolio_dir filename : String) : String :=
  joinPath (joinPath portfolio_dir "slider") (sliderName filename)

/-- One iteration of the `for filename in os.listdir(portfolio_dir)` loop
(lines 132–162), acting on the filesystem and the accumulated printed
output. -/
def processFile (portfolio_dir : String) (backup : Bool)
    (acc : FS × List String) (filename : String) : FS × List String :=
  if isFile acc.1 (joinPath portfolio_dir filename) then
    if pyLower (splitext filename).2 ∈ image_extensions then
      let input_path := joinPath portfolio_dir filename
      let acc1 : FS × List String :=
        if backup then
          if pathExists acc.1 (backupPath portfolio_dir filename) then acc
          else (copy2 acc.1 input_path (backupPath portfolio_dir filename),
                acc.2 ++ ["Backed up: " ++ filename])
        else acc
      let r1 := resize_image acc1.1 input_path (previewPath portfolio_dir filename)
        (800, 600) 85 true
      let r2 := resize_image r1.1 input_path (sliderPath portfolio_dir filename)
        (1200, 800) 85 true
      (r2.1, acc1.2 ++ r1.2 ++ r2.2)
    else acc
  else acc

/-- `process_portfolio_images` (lines 101–162).  `listing` is the snapshot
returned by `os.listdir(portfolio_dir)` when the loop starts. -/
def process_portfolio_images (fs : FS) (portfolio_dir : String)
    (listing : List String) (backup : Bool) : FS × List String :=
  let s1 : FS × List String :=
    if backup then
      (makedirs fs (joinPath portfolio_dir "backup_original"),
       ["Backup directory created: " ++ joinPath portfolio_dir "backup_original"])
    else (fs, [])
  let s2 : FS × List String :=
    (makedirs (makedirs s1.1 (joinPath portfolio_dir "preview"))
       (joinPath portfolio_dir "slider"),
     s1.2 ++ ["Preview directory: " ++ joinPath portfolio_dir "preview",
              "Slider directory: " ++ joinPath portfolio_dir "slider"])
  listing.foldl (processFile portfolio_dir backup) s2

/-- The parsed command line of the tool (lines 165–173). -/
structure CliArgs where
  portfolio_dir : String
  no_backup : Bool
deriving DecidableEq

/-- A row of 50 equals signs, Python `"=" * 50`. -/
def eqBar : String := String.mk (List.replicate 50 '=')

/-- `main` (lines 164–203): returns the process exit code, the final
filesystem and the printed lines.  A missing portfolio directory prints the
two error lines and exits with status 1 before any directory is created;
otherwise the banner is printed, the batch runs, the summary is printed and
the process exits with status 0.  (Named `main` in the script; `main_py`
here because Lean reserves `main` for executables.) -/
def main_py (fs : FS) (args : CliArgs) (listing : List String) :
    Nat × FS × List String :=
  if pathExists fs args.portfolio_dir then
    let r := process_portfolio_images fs args.portfolio_dir listing (! args.no_backup)
    (0, r.1,
      ["Portfolio Image Resizer - Dual Version (Smart Cropping)", eqBar,
       "Processing images in: " ++ args.portfolio_dir,
       "Preview size: 800x600px (4:3 ratio) - Smart cropped",
       "Slider size: 1200x800px (3:2 ratio) - Smart cropped",
       "Backup original images: " ++ (if args.no_backup then "False" else "True"), ""]
      ++ r.2 ++
      ["\n" ++ eqBar, "Resizing complete!", "\nFile structure created:",
       "├── " ++ args.portfolio_dir ++ "/",
       "│   ├── backup_original/     # Original images",
       "│   ├── preview/             # 800x600px for grid (cropped)",
       "│   └── slider/              # 1200x800px for detail pages (cropped)",
       "\nNext steps:",
       "1. Update templates to use preview/ and slider/ images",
       "2. Test the portfolio display",
       "3. Delete original images if satisfied"])
  else
    (1, fs,
     ["Error: Directory " ++ "'" ++ args.portfolio_dir ++ "'" ++ " does not exist!",
      "Please provide the correct path to your portfolio images directory."])

/-- Modelled from the spec: the `ContactSubmission` record (the `Contact`
model class of `home/models.py`, which is not part of the provided sources):
four text fields `name`, `email`, `subject`, `message`, created on form
submission by `home/views.py`. -/
structure Contact where
  name : String
  email : String
  subject : String
  message : String
deriving DecidableEq

/-- An inbound Django request: its method and the POST data (key/value
pairs; Django `QueryDict.get` returns the last value for a repeated key). -/
structure HttpRequest where
  method : String
  post : List (String × String)
deriving DecidableEq

/-- `request.POST.get(key, default)`. -/
def postGetD (request : HttpRequest) (key deflt : String) : String :=
  match (request.post.filter (fun kv => kv.1 = key)).getLast? with
  | some kv => kv.2
  | none => deflt

/-- The `contact` view (`home/views.py` lines 31–39) acting on the stored
contact-submission table: on a POST it reads the four optional fields
(defaulting to the empty string), appends one record via
`Contact.objects.create`, and in every case returns the rendered
`home.html`. -/
def contact (db : List Contact) (request : HttpRequest) :
    List Contact × String :=
  if request.method = "POST" then
    let name := postGetD request "name" ""
    let email := postGetD request "email" ""
    let subject := postGetD request "subject" ""
    let message := postGetD request "message" ""
    (db ++ [{ name := name, email := email, subject := subject, message := message }],
     "home.html")
  else (db, "home.html")

/-- `home` (`home/views.py` line 7): renders the static home page. -/
def home (_request : HttpRequest) : String := "home.html"

/-- `project` (`home/views.py` line 19). -/
def project (_request : HttpRequest) : String := "project.html"

/-! ### String and path helper lemmas -/

lemma str_eq_of_data {s t : String} (h : s.data = t.data) : s = t :=
  congrArg String.mk h

lemma str_ne_of_data {s t : String} (h : s.data ≠ t.data) : s ≠ t :=
  fun e => h (congrArg String.data e)

lemma str_ne_of_mem {c : Char} {s t : String} (h1 : c ∉ s.data) (h2 : c ∈ t.data) :
    s ≠ t := by
  intro e
  exact h1 (by rw [congrArg String.data e]; exact h2)

lemma str_ne_of_length {s t : String} (h : s.data.length ≠ t.data.length) : s ≠ t :=
  str_ne_of_data (fun e => h (congrArg List.length e))

lemma append_data3 (a b c : String) : (a ++ b ++ c).data = a.data ++ b.data ++ c.data := by
  rw [String.data_append, String.data_append]

lemma joinPath_data (a b : String) : (joinPath a b).data = a.data ++ '/' :: b.data := by
  show (a ++ "/" ++ b).data = a.data ++ '/' :: b.data
  rw [append_data3, List.append_assoc]
  rfl

lemma joinPath_inj {d a b : String} (h : joinPath d a = joinPath d b) : a = b := by
  have hd := congrArg String.data h
  rw [joinPath_data, joinPath_data] at hd
  have := List.append_cancel_left hd
  exact str_eq_of_data (List.cons_injective.eq_iff.mp this)

lemma joinPath_ne {d : String} {a b : String} (h : a ≠ b) : joinPath d a ≠ joinPath d b :=
  fun e => h (joinPath_inj e)

lemma joinPath_assoc (d a b : String) :
    joinPath (joinPath d a) b = joinPath d (a ++ "/" ++ b) := by
  apply str_eq_of_data
  have h : (a ++ "/" ++ b).data = a.data ++ '/' :: b.data := joinPath_data a b
  rw [joinPath_data, joinPath_data, joinPath_data, h, List.append_assoc]
  rfl

lemma slash_mem_join (a x : String) : '/' ∈ (a ++ "/" ++ x).data := by
  rw [append_data3]
  have h : '/' ∈ ("/" : String).data := by decide
  exact List.mem_append.mpr (Or.inl (List.mem_append.mpr (Or.inr h)))

lemma head_of_append {a : String} {c : Char} (h : a.data.head? = some c) (x : String) :
    (a ++ x).data.head? = some c := by
  rw [String.data_append]
  cases ha : a.data with
  | nil => rw [ha] at h; simp at h
  | cons y ys => rw [ha] at h; simp at h; simp [ha, h]

lemma str_ne_of_head {s t : String} {c1 c2 : Char}
    (h1 : s.data.head? = some c1) (h2 : t.data.head? = some c2) (h : c1 ≠ c2) : s ≠ t := by
  intro e
  rw [e, h2] at h1
  exact h (Option.some_injective _ h1).symm

/-! ### splitext lemmas -/

lemma lastDotIdx_none {cs : List Char} (h : lastDotIdx cs = none) : '.' ∉ cs := by
  induction cs with
  | nil => simp
  | cons c cs ih =>
    simp only [lastDotIdx] at h
    cases hcs : lastDotIdx cs with
    | some i => rw [hcs] at h; simp at h
    | none =>
      rw [hcs] at h
      by_cases hc : c = '.'
      · simp [hc] at h
      · intro hm
        rcases List.mem_cons.mp hm with h1 | h2
        · exact hc h1.symm
        · exact ih hcs h2

lemma lastDotIdx_spec {cs : List Char} {i : Nat} (h : lastDotIdx cs = some i) :
    cs.drop i = '.' :: cs.drop (i + 1) ∧ '.' ∉ cs.drop (i + 1) := by
  induction cs generalizing i with
  | nil => simp [lastDotIdx] at h
  | cons c cs ih =>
    simp only [lastDotIdx] at h
    cases hcs : lastDotIdx cs with
    | some j =>
      rw [hcs] at h
      simp only [Option.some.injEq] at h
      subst h
      simpa using ih hcs
    | none =>
      rw [hcs] at h
      by_cases hc : c = '.'
      · rw [if_pos hc] at h
        simp only [Option.some.injEq] at h
        subst h
        refine ⟨by simpa using hc.symm ▸ rfl, ?_⟩
        simpa using lastDotIdx_none hcs
      · rw [if_neg hc] at h
        exact absurd h (by simp)

lemma splitext_none {s : String} (h : lastDotIdx s.data = none) : splitext s = (s, "") := by
  unfold splitext
  rw [h]

lemma splitext_some {s : String} {i : Nat} (h : lastDotIdx s.data = some i) :
    splitext s =
      if (s.data.take i).any (fun c => c ≠ '.') then
        (String.mk (s.data.take i), String.mk (s.data.drop i))
      else (s, "") := by
  unfold splitext
  rw [h]

lemma splitext_recombine (s : String) : (splitext s).1 ++ (splitext s).2 = s := by
  cases h : lastDotIdx s.data with
  | none =>
    rw [splitext_none h]
    apply str_eq_of_data
    rw [String.data_append]
    simp
  | some i =>
    rw [splitext_some h]
    by_cases hp : (s.data.take i).any (fun c => c ≠ '.')
    · rw [if_pos hp]
      apply str_eq_of_data
      rw [String.data_append]
      exact List.take_append_drop i s.data
    · rw [if_neg hp]
      apply str_eq_of_data
      rw [String.data_append]
      simp

lemma splitext_ext_shape {s : String} (h : (splitext s).2 ≠ "") :
    ∃ t, (splitext s).2.data = '.' :: t ∧ '.' ∉ t := by
  cases hidx : lastDotIdx s.data with
  | none => rw [splitext_none hidx] at h; simp at h
  | some i =>
    rw [splitext_some hidx] at h ⊢
    by_cases hp : (s.data.take i).any (fun c => c ≠ '.')
    · rw [if_pos hp]
      obtain ⟨h1, h2⟩ := lastDotIdx_spec hidx
      exact ⟨s.data.drop (i + 1), by simpa using h1, h2⟩
    · rw [if_neg hp] at h
      simp at h

lemma ext_ne_empty {s : String} (h : pyLower (splitext s).2 ∈ image_extensions) :
    (splitext s).2 ≠ "" := by
  intro e
  rw [e] at h
  revert h
  decide

lemma dot_mem_of_ext {s : String} (h : pyLower (splitext s).2 ∈ image_extensions) :
    '.' ∈ s.data := by
  obtain ⟨t, h1, _⟩ := splitext_ext_shape (ext_ne_empty h)
  have hs : s.data = (splitext s).1.data ++ (splitext s).2.data := by
    rw [← String.data_append, splitext_recombine]
  rw [hs, h1]
  simp

/-! ### Derived-name injectivity -/

lemma split_at_first_dot {l1 r1 : List Char} :
    ∀ {l2 r2 : List Char}, l1 ++ '.' :: r1 = l2 ++ '.' :: r2 → '.' ∉ l1 → '.' ∉ l2 →
      l1 = l2 ∧ r1 = r2 := by
  induction l1 with
  | nil =>
    intro l2 r2 h h1 h2
    cases l2 with
    | nil => simpa using h
    | cons b bs =>
      simp only [List.nil_append, List.cons_append, List.cons.injEq] at h
      exact absurd (h.1 ▸ List.mem_cons_self b bs) h2
  | cons a as ih =>
    intro l2 r2 h h1 h2
    cases l2 with
    | nil =>
      simp only [List.nil_append, List.cons_append, List.cons.injEq] at h
      exact absurd (h.1 ▸ List.mem_cons_self a as) h1
    | cons b bs =>
      simp only [List.cons_append, List.cons.injEq] at h
      obtain ⟨hab, htail⟩ := h
      have h1' : '.' ∉ as := fun hm => h1 (List.mem_cons_of_mem a hm)
      have h2' : '.' ∉ bs := fun hm => h2 (List.mem_cons_of_mem b hm)
      obtain ⟨he, hr⟩ := ih htail h1' h2'
      exact ⟨by rw [hab, he], hr⟩

lemma ext_decor_inj {dec : String} {f g : String}
    (hf : pyLower (splitext f).2 ∈ image_extensions)
    (hg : pyLower (splitext g).2 ∈ image_extensions)
    (h : (splitext f).1 ++ dec ++ (splitext f).2 = (splitext g).1 ++ dec ++ (splitext g).2) :
    f = g := by
  obtain ⟨tf, hft, hfd⟩ := splitext_ext_shape (ext_ne_empty hf)
  obtain ⟨tg, hgt, hgd⟩ := splitext_ext_shape (ext_ne_empty hg)
  have hd := congrArg String.data h
  rw [append_data3, append_data3, hft, hgt] at hd
  have hrev := congrArg List.reverse hd
  rw [List.reverse_append, List.reverse_append, List.reverse_append, List.reverse_append,
      List.reverse_cons, List.reverse_cons, List.append_assoc, List.append_assoc,
      List.singleton_append, List.singleton_append] at hrev
  obtain ⟨hrt, hrb⟩ := split_at_first_dot hrev
    (by simpa using hfd) (by simpa using hgd)
  have htt : tf = tg := List.reverse_inj.mp hrt
  have hbb : (splitext f).1 = (splitext g).1 := by
    apply str_eq_of_data
    exact List.reverse_inj.mp (List.append_cancel_left hrb)
  have hee : (splitext f).2 = (splitext g).2 :=
    str_eq_of_data (by rw [hft, hgt, htt])
  calc f = (splitext f).1 ++ (splitext f).2 := (splitext_recombine f).symm
    _ = (splitext g).1 ++ (splitext g).2 := by rw [hbb, hee]
    _ = g := splitext_recombine g

lemma previewName_inj {f g : String}
    (hf : pyLower (splitext f).2 ∈ image_extensions)
    (hg : pyLower (splitext g).2 ∈ image_extensions)
    (h : previewName f = previewName g) : f = g :=
  ext_decor_inj hf hg h

lemma sliderName_inj {f g : String}
    (hf : pyLower (splitext f).2 ∈ image_extensions)
    (hg : pyLower (splitext g).2 ∈ image_extensions)
    (h : sliderName f = sliderName g) : f = g :=
  ext_decor_inj hf hg h

/-! ### Path disjointness -/

lemma subPath_head {sub : String} {c : Char} (h : sub.data.head? = some c) (x : String) :
    (sub ++ "/" ++ x).data.head? = some c :=
  head_of_append (head_of_append h "/") x

lemma subPaths_ne {d s1 s2 n1 n2 : String} {c1 c2 : Char}
    (h1 : s1.data.head? = some c1) (h2 : s2.data.head? = some c2) (hc : c1 ≠ c2) :
    joinPath (joinPath d s1) n1 ≠ joinPath (joinPath d s2) n2 := by
  rw [joinPath_assoc, joinPath_assoc]
  exact joinPath_ne (str_ne_of_head (subPath_head h1 n1) (subPath_head h2 n2) hc)

lemma preview_ne_slider (d f g : String) : previewPath d f ≠ sliderPath d g :=
  @subPaths_ne d "preview" "slider" (previewName f) (sliderName g) 'p' 's'
    (by decide) (by decide) (by decide)

lemma preview_ne_backup (d f g : String) : previewPath d f ≠ backupPath d g :=
  @subPaths_ne d "preview" "backup_original" (previewName f) g 'p' 'b'
    (by decide) (by decide) (by decide)

lemma slider_ne_backup (d f g : String) : sliderPath d f ≠ backupPath d g :=
  @subPaths_ne d "slider" "backup_original" (sliderName f) g 's' 'b'
    (by decide) (by decide) (by decide)

lemma backupPath_inj {d f g : String} (h : backupPath d f = backupPath d g) : f = g :=
  joinPath_inj h

lemma previewPath_inj {d f g : String}
    (hf : pyLower (splitext f).2 ∈ image_extensions)
    (hg : pyLower (splitext g).2 ∈ image_extensions)
    (h : previewPath d f = previewPath d g) : f = g :=
  previewName_inj hf hg (joinPath_inj h)

lemma sliderPath_inj {d f g : String}
    (hf : pyLower (splitext f).2 ∈ image_extensions)
    (hg : pyLower (splitext g).2 ∈ image_extensions)
    (h : sliderPath d f = sliderPath d g) : f = g :=
  sliderName_inj hf hg (joinPath_inj h)

/-- The input path `<dir>/<filename>` of a bare filename differs from every
path inside a subdirectory of `<dir>`. -/
lemma input_ne_subPath {f : String} (d sub n : String) (hs : '/' ∉ f.data) :
    joinPath d f ≠ joinPath (joinPath d sub) n := by
  rw [joinPath_assoc]
  exact joinPath_ne (str_ne_of_mem hs (slash_mem_join sub n))

/-- The input path of a filename containing a dot differs from the created
subdirectory paths (whose names contain no dot). -/
lemma input_ne_dirPath {f : String} (d : String) {sub : String}
    (hdot : '.' ∈ f.data) (hsub : '.' ∉ sub.data) :
    joinPath d f ≠ joinPath d sub :=
  joinPath_ne (str_ne_of_mem hsub hdot).symm

lemma dirPath_ne_subPath_head {d s1 s2 n : String} {c1 c2 : Char}
    (h1 : s1.data.head? = some c1) (h2 : s2.data.head? = some c2) (hc : c1 ≠ c2) :
    joinPath d s1 ≠ joinPath (joinPath d s2) n := by
  rw [joinPath_assoc]
  exact joinPath_ne (str_ne_of_head h1 (subPath_head h2 n) hc)

lemma dirPath_ne_subPath_len (d sub n : String) :
    joinPath d sub ≠ joinPath (joinPath d sub) n := by
  rw [joinPath_assoc]
  apply joinPath_ne
  apply str_ne_of_length
  have h1 : (sub ++ "/" ++ n).data.length = sub.data.length + 1 + n.data.length := by
    rw [append_data3, show ("/" : String).data = ['/'] from rfl]
    simp only [List.length_append, List.length_singleton]
  omega

/-! ### Filesystem frame lemmas -/

lemma fsUpdate_self (fs : FS) (p : String) (e : Entry) : fsUpdate fs p e p = some e :=
  if_pos rfl

lemma fsUpdate_ne {p q : String} (fs : FS) (e : Entry) (h : q ≠ p) :
    fsUpdate fs p e q = fs q := if_neg h

lemma makedirs_frame {p q : String} (fs : FS) (h : q ≠ p) : makedirs fs p q = fs q := by
  unfold makedirs
  split
  · rfl
  · exact fsUpdate_ne fs Entry.dir h

lemma copy2_frame {dst q : String} (fs : FS) (src : String) (h : q ≠ dst) :
    copy2 fs src dst q = fs q := by
  unfold copy2
  cases fs src
  · rfl
  · exact fsUpdate_ne _ _ h

lemma saveImg_frame {out q : String} (fs : FS) (img : PILImage) (ql : Nat) (h : q ≠ out) :
    saveImg fs out img ql q = fs q := fsUpdate_ne _ _ h

/-! ### resize_image characterization -/

lemma convertPIL_eq (img : PILImage) :
    convertPIL img = { img with mode := convertMode img.mode } := by
  unfold convertPIL convertMode
  by_cases h : img.mode ∈ ["RGBA", "LA", "P"]
  · simp [h]
  · simp [h]

lemma convertPIL_width (img : PILImage) : (convertPIL img).width = img.width := by
  unfold convertPIL
  split <;> rfl

lemma convertPIL_height (img : PILImage) : (convertPIL img).height = img.height := by
  unfold convertPIL
  split <;> rfl

lemma cropModeImage_spec (img : PILImage) (ts : Nat × Nat) :
    cropModeImage img ts = ⟨ts.1, ts.2, img.mode⟩ := by
  unfold cropModeImage cropBox
  split <;> simp only [PILImage.mk.injEq] <;> exact ⟨by omega, by omega, trivial⟩

lemma resize_image_body_ok {fs : FS} {inp out : String} {ts : Nat × Nat} {qlt : Nat}
    {cm : Bool} {pr : FS × String}
    (h : resize_image_body fs inp out ts qlt cm = Except.ok pr) :
    ∃ img1, pr = (saveImg fs out img1 qlt, okMsg inp out ts) := by
  unfold resize_image_body at h
  cases hfs : fs inp with
  | none => rw [hfs] at h; simp at h
  | some e =>
    rw [hfs] at h
    cases e with
    | dir => simp at h
    | file fd =>
      cases fd with
      | corrupt t => simp at h
      | image i f q =>
        dsimp only at h
        repeat' split at h
        all_goals try exact ⟨_, (Except.ok.inj h).symm⟩
        all_goals simp at h

lemma resize_image_frame {p out : String} (fs : FS) (inp : String) (ts : Nat × Nat)
    (qlt : Nat) (cm : Bool) (h : p ≠ out) :
    (resize_image fs inp out ts qlt cm).1 p = fs p := by
  unfold resize_image
  cases hb : resize_image_body fs inp out ts qlt cm with
  | error e => rfl
  | ok pr =>
    obtain ⟨img1, rfl⟩ := resize_image_body_ok hb
    exact saveImg_frame fs img1 qlt h

lemma resize_image_body_readable {fs : FS} {inp : String} {img : PILImage}
    {fmt : String} {q : Option Nat} (out : String) (ts : Nat × Nat) (qlt : Nat)
    (hread : fs inp = some (Entry.file (FileData.image img fmt q)))
    (hw : img.width ≠ 0) (hh : img.height ≠ 0) (hts : ts.2 ≠ 0) :
    resize_image_body fs inp out ts qlt true =
      Except.ok (saveImg fs out (cropModeImage (convertPIL img) ts) qlt,
        okMsg inp out ts) := by
  unfold resize_image_body
  rw [hread]
  dsimp only
  rw [if_pos (show (true : Bool) = true from rfl)]
  rw [if_neg (by rw [convertPIL_height]; exact hh), if_neg hts]
  split
  · rfl
  · rw [if_neg (by rw [convertPIL_width]; exact hw)]

lemma resize_image_readable {fs : FS} {inp : String} {img : PILImage}
    {fmt : String} {q : Option Nat} (out : String) (ts : Nat × Nat) (qlt : Nat)
    (hread : fs inp = some (Entry.file (FileData.image img fmt q)))
    (hw : img.width ≠ 0) (hh : img.height ≠ 0) (hts : ts.2 ≠ 0) :
    resize_image fs inp out ts qlt true =
      (saveImg fs out (cropModeImage (convertPIL img) ts) qlt, [okMsg inp out ts]) := by
  unfold resize_image
  rw [resize_image_body_readable out ts qlt hread hw hh hts]

lemma resize_image_body_notfound {fs : FS} {inp : String} (h : fs inp = none)
    (out : String) (ts : Nat × Nat) (qlt : Nat) (cm : Bool) :
    resize_image_body fs inp out ts qlt cm =
      Except.error ("No such file or directory: " ++ inp) := by
  unfold resize_image_body
  rw [h]

lemma resize_image_body_corrupt {fs : FS} {inp : String} {k : Nat}
    (h : fs inp = some (Entry.file (FileData.corrupt k)))
    (out : String) (ts : Nat × Nat) (qlt : Nat) (cm : Bool) :
    resize_image_body fs inp out ts qlt cm =
      Except.error ("cannot identify image file " ++ inp) := by
  unfold resize_image_body
  rw [h]

lemma resize_image_error {fs : FS} {inp out : String} {ts : Nat × Nat} {qlt : Nat}
    {cm : Bool} {e : String}
    (h : resize_image_body fs inp out ts qlt cm = Except.error e) :
    resize_image fs inp out ts qlt cm = (fs, [errMsg inp e]) := by
  unfold resize_image
  rw [h]

/-! ### processFile characterization -/

lemma isFile_of_file {fs : FS} {p : String} {fd : FileData}
    (h : fs p = some (Entry.file fd)) : isFile fs p = true := by
  unfold isFile
  rw [h]

lemma pathExists_of_some {fs : FS} {p : String} {e : Entry}
    (h : fs p = some e) : pathExists fs p = true := by
  unfold pathExists
  rw [h]
  rfl

lemma input_ne_preview {f : String} (d g : String) (hs : '/' ∉ f.data) :
    joinPath d f ≠ previewPath d g :=
  input_ne_subPath d "preview" (previewName g) hs

lemma input_ne_slider {f : String} (d g : String) (hs : '/' ∉ f.data) :
    joinPath d f ≠ sliderPath d g :=
  input_ne_subPath d "slider" (sliderName g) hs

lemma input_ne_backup {f : String} (d g : String) (hs : '/' ∉ f.data) :
    joinPath d f ≠ backupPath d g :=
  input_ne_subPath d "backup_original" g hs

lemma convertPIL_mode (img : PILImage) : (convertPIL img).mode = convertMode img.mode := by
  rw [convertPIL_eq]

/-- A loop iteration writes only at the backup, preview and slider paths of
its own filename. -/
lemma processFile_frame {d : String} {b : Bool} {acc : FS × List String} {g p : String}
    (hb : pyLower (splitext g).2 ∈ image_extensions →
      p ≠ backupPath d g ∧ p ≠ previewPath d g ∧ p ≠ sliderPath d g) :
    (processFile d b acc g).1 p = acc.1 p := by
  unfold processFile
  split
  · split
    · next hext =>
      obtain ⟨h1, h2, h3⟩ := hb hext
      dsimp only
      rw [resize_image_frame _ _ _ _ _ h3, resize_image_frame _ _ _ _ _ h2]
      split
      · split
        · rfl
        · exact copy2_frame _ _ h1
      · rfl
    · rfl
  · rfl

lemma exists_suffix3 (X A B : List String) : ∃ suf, (X ++ A) ++ B = X ++ suf :=
  ⟨A ++ B, List.append_assoc X A B⟩

lemma exists_suffix4 (X m A B : List String) :
    ∃ suf, ((X ++ m) ++ A) ++ B = X ++ suf :=
  ⟨m ++ A ++ B, by simp only [List.append_assoc]⟩

lemma processFile_log_prefix (d : String) (b : Bool) (acc : FS × List String) (g : String) :
    ∃ suf, (processFile d b acc g).2 = acc.2 ++ suf := by
  unfold processFile
  split
  · split
    · dsimp only
      split
      · split
        · exact exists_suffix3 _ _ _
        · exact exists_suffix4 _ _ _ _
      · exact exists_suffix3 _ _ _
    · exact ⟨[], (List.append_nil _).symm⟩
  · exact ⟨[], (List.append_nil _).symm⟩

/-- The two back-to-back `resize_image` calls of the loop body on a readable
input: both derivative files are written with exactly the target sizes, and
nothing else changes. -/
lemma resize_pair_spec {d f : String} {img : PILImage} {fmt : String} {q : Option Nat}
    (fs0 : FS)
    (hread0 : fs0 (joinPath d f) = some (Entry.file (FileData.image img fmt q)))
    (hslash : '/' ∉ f.data) (hw : img.width ≠ 0) (hh : img.height ≠ 0) :
    (resize_image (resize_image fs0 (joinPath d f) (previewPath d f) (800, 600) 85 true).1
        (joinPath d f) (sliderPath d f) (1200, 800) 85 true).1 (previewPath d f)
      = some (Entry.file (FileData.image ⟨800, 600, convertMode img.mode⟩
          (savedFormat (previewPath d f)) (savedQuality (previewPath d f) 85)))
    ∧ (resize_image (resize_image fs0 (joinPath d f) (previewPath d f) (800, 600) 85 true).1
        (joinPath d f) (sliderPath d f) (1200, 800) 85 true).1 (sliderPath d f)
      = some (Entry.file (FileData.image ⟨1200, 800, convertMode img.mode⟩
          (savedFormat (sliderPath d f)) (savedQuality (sliderPath d f) 85)))
    ∧ ∀ p, p ≠ previewPath d f → p ≠ sliderPath d f →
        (resize_image (resize_image fs0 (joinPath d f) (previewPath d f) (800, 600) 85 true).1
          (joinPath d f) (sliderPath d f) (1200, 800) 85 true).1 p = fs0 p := by
  have h1 := resize_image_readable (previewPath d f) (800, 600) 85 hread0 hw hh (by decide)
  rw [h1]
  dsimp only
  have hread1 : saveImg fs0 (previewPath d f) (cropModeImage (convertPIL img) (800, 600)) 85
      (joinPath d f) = some (Entry.file (FileData.image img fmt q)) := by
    rw [saveImg_frame _ _ _ (input_ne_preview d f hslash)]
    exact hread0
  have h2 := resize_image_readable (sliderPath d f) (1200, 800) 85 hread1 hw hh (by decide)
  rw [h2]
  dsimp only
  refine ⟨?_, ?_, ?_⟩
  · rw [saveImg_frame _ _ _ (preview_ne_slider d f f)]
    unfold saveImg
    rw [fsUpdate_self, cropModeImage_spec, convertPIL_mode]
  · unfold saveImg
    rw [fsUpdate_self, cropModeImage_spec, convertPIL_mode]
  · intro p hp hs
    rw [saveImg_frame _ _ _ hs, saveImg_frame _ _ _ hp]

/-- The loop body on a readable image file: both derivatives are produced at
their designated paths with the fixed target sizes, and a pre-existing backup
entry is left exactly as it was. -/
lemma processFile_readable {d f : String} {img : PILImage} {fmt : String} {q : Option Nat}
    (b : Bool) (acc : FS × List String)
    (hread : acc.1 (joinPath d f) = some (Entry.file (FileData.image img fmt q)))
    (hext : pyLower (splitext f).2 ∈ image_extensions)
    (hslash : '/' ∉ f.data)
    (hw : img.width ≠ 0) (hh : img.height ≠ 0) :
    (processFile d b acc f).1 (previewPath d f)
        = some (Entry.file (FileData.image ⟨800, 600, convertMode img.mode⟩
            (savedFormat (previewPath d f)) (savedQuality (previewPath d f) 85)))
    ∧ (processFile d b acc f).1 (sliderPath d f)
        = some (Entry.file (FileData.image ⟨1200, 800, convertMode img.mode⟩
            (savedFormat (sliderPath d f)) (savedQuality (sliderPath d f) 85)))
    ∧ ∀ e, acc.1 (backupPath d f) = some e →
        (processFile d b acc f).1 (backupPath d f) = some e := by
  unfold processFile
  rw [if_pos (isFile_of_file hread), if_pos hext]
  dsimp only
  by_cases hb : b = true
  · rw [if_pos hb]
    by_cases hex : pathExists acc.1 (backupPath d f) = true
    · rw [if_pos hex]
      obtain ⟨c1, c2, c3⟩ := resize_pair_spec acc.1 hread hslash hw hh
      exact ⟨c1, c2, fun e he => by
        rw [c3 _ (preview_ne_backup d f f).symm (slider_ne_backup d f f).symm]
        exact he⟩
    · rw [if_neg hex]
      dsimp only
      have hread' : copy2 acc.1 (joinPath d f) (backupPath d f) (joinPath d f)
          = some (Entry.file (FileData.image img fmt q)) := by
        rw [copy2_frame _ _ (input_ne_backup d f hslash)]
        exact hread
      obtain ⟨c1, c2, _⟩ := resize_pair_spec _ hread' hslash hw hh
      exact ⟨c1, c2, fun e he => absurd (pathExists_of_some he) hex⟩
  · rw [if_neg hb]
    obtain ⟨c1, c2, c3⟩ := resize_pair_spec acc.1 hread hslash hw hh
    exact ⟨c1, c2, fun e he => by
      rw [c3 _ (preview_ne_backup d f f).symm (slider_ne_backup d f f).symm]
      exact he⟩

/-- The loop body on a corrupt file: both resize attempts fail, each failure
is caught and logged, and nothing is written except possibly the backup copy
of the file itself. -/
lemma processFile_corrupt {d c : String} {k : Nat} (b : Bool) (acc : FS × List String)
    (hread : acc.1 (joinPath d c) = some (Entry.file (FileData.corrupt k)))
    (hext : pyLower (splitext c).2 ∈ image_extensions)
    (hslash : '/' ∉ c.data) :
    (∀ p, p ≠ backupPath d c → (processFile d b acc c).1 p = acc.1 p)
    ∧ ∃ bl, (processFile d b acc c).2 =
        acc.2 ++ bl ++
          [errMsg (joinPath d c) ("cannot identify image file " ++ joinPath d c),
           errMsg (joinPath d c) ("cannot identify image file " ++ joinPath d c)] := by
  unfold processFile
  rw [if_pos (isFile_of_file hread), if_pos hext]
  dsimp only
  by_cases hb : b = true
  · rw [if_pos hb]
    by_cases hex : pathExists acc.1 (backupPath d c) = true
    · rw [if_pos hex]
      rw [resize_image_error (resize_image_body_corrupt hread _ _ _ _)]
      dsimp only
      rw [resize_image_error (resize_image_body_corrupt hread _ _ _ _)]
      refine ⟨fun p hp => rfl, ⟨[], by simp⟩⟩
    · rw [if_neg hex]
      dsimp only
      have hread' : copy2 acc.1 (joinPath d c) (backupPath d c) (joinPath d c)
          = some (Entry.file (FileData.corrupt k)) := by
        rw [copy2_frame _ _ (input_ne_backup d c hslash)]
        exact hread
      rw [resize_image_error (resize_image_body_corrupt hread' _ _ _ _)]
      dsimp only
      rw [resize_image_error (resize_image_body_corrupt hread' _ _ _ _)]
      refine ⟨fun p hp => copy2_frame _ _ hp, ⟨["Backed up: " ++ c], by simp⟩⟩
  · rw [if_neg hb]
    rw [resize_image_error (resize_image_body_corrupt hread _ _ _ _)]
    dsimp only
    rw [resize_image_error (resize_image_body_corrupt hread _ _ _ _)]
    refine ⟨fun p hp => rfl, ⟨[], by simp⟩⟩

/-! ### Batch-level lemmas -/

/-- Iterating the loop over `l` leaves every path untouched that is not a
backup/preview/slider path of a recognized file of `l`. -/
lemma foldl_processFile_frame {d : String} {b : Bool} {p : String} :
    ∀ (l : List String) (acc : FS × List String),
      (∀ g ∈ l, pyLower (splitext g).2 ∈ image_extensions →
        p ≠ backupPath d g ∧ p ≠ previewPath d g ∧ p ≠ sliderPath d g) →
      (List.foldl (processFile d b) acc l).1 p = acc.1 p := by
  intro l
  induction l with
  | nil => intro acc _; rfl
  | cons g l ih =>
    intro acc hl
    rw [List.foldl_cons, ih _ (fun x hx hex => hl x (List.mem_cons_of_mem g hx) hex)]
    exact processFile_frame (hl g (List.mem_cons_self g l))

/-- The loop only ever appends to the printed output. -/
lemma foldl_log_prefix {d : String} {b : Bool} :
    ∀ (l : List String) (acc : FS × List String),
      ∃ suf, (List.foldl (processFile d b) acc l).2 = acc.2 ++ suf := by
  intro l
  induction l with
  | nil => intro acc; exact ⟨[], (List.append_nil _).symm⟩
  | cons g l ih =>
    intro acc
    rw [List.foldl_cons]
    obtain ⟨s1, h1⟩ := ih (processFile d b acc g)
    obtain ⟨s2, h2⟩ := processFile_log_prefix d b acc g
    exact ⟨s2 ++ s1, by rw [h1, h2, List.append_assoc]⟩

/-- `process_portfolio_images` written as a fold over the per-file loop body,
starting from the filesystem produced by the directory-creation prelude. -/
lemma process_portfolio_eq (fs : FS) (d : String) (listing : List String) (b : Bool) :
    process_portfolio_images fs d listing b =
      List.foldl (processFile d b)
        (makedirs (makedirs
            (if b = true then makedirs fs (joinPath d "backup_original") else fs)
            (joinPath d "preview")) (joinPath d "slider"),
         (if b = true then
            ["Backup directory created: " ++ joinPath d "backup_original"] else []) ++
           ["Preview directory: " ++ joinPath d "preview",
            "Slider directory: " ++ joinPath d "slider"]) listing := by
  unfold process_portfolio_images
  by_cases hb : b = true
  · rw [if_pos hb, if_pos hb, if_pos hb]
  · rw [if_neg hb, if_neg hb, if_neg hb]

/-! ### Crop-geometry lemmas -/

lemma pyTrunc_of_nonneg {q : ℚ} (h : 0 ≤ q) : pyTrunc q = ⌊q⌋ :=
  if_neg (not_lt.mpr h)

lemma imgAspect_nonneg (img : PILImage) : 0 ≤ imgAspect img :=
  div_nonneg (by positivity) (by positivity)

lemma imgAspect_pos {img : PILImage} (hw : img.width ≠ 0) (hh : img.height ≠ 0) :
    0 < imgAspect img := by
  unfold imgAspect
  have h1 : (0 : ℚ) < (img.width : ℚ) := by positivity
  have h2 : (0 : ℚ) < (img.height : ℚ) := by positivity
  positivity

/-- Branch `img_ratio > target_ratio` of crop mode: the image is scaled to
the target height, its scaled width is at least the target width, only the
width is cropped, and the crop is horizontally centered with the extra pixel
(if any) on the right. -/
lemma crop_branchA_facts (img : PILImage) (ts : Nat × Nat)
    (hth : ts.2 ≠ 0) (hgt : imgAspect img > targetAspect ts) :
    cropScaledSize img ts = ((⌊(ts.2 : ℚ) * imgAspect img⌋).toNat, ts.2)
    ∧ (ts.1 : ℤ) ≤ ((cropScaledSize img ts).1 : ℤ)
    ∧ cropTopMargin img ts = 0 ∧ cropBottomMargin img ts = 0
    ∧ 0 ≤ cropLeftMargin img ts
    ∧ cropLeftMargin img ts + cropRightMargin img ts
        = ((cropScaledSize img ts).1 : ℤ) - (ts.1 : ℤ)
    ∧ (cropRightMargin img ts = cropLeftMargin img ts ∨
       cropRightMargin img ts = cropLeftMargin img ts + 1) := by
  have harg : 0 ≤ (ts.2 : ℚ) * imgAspect img :=
    mul_nonneg (by positivity) (imgAspect_nonneg img)
  have hsz : cropScaledSize img ts = ((⌊(ts.2 : ℚ) * imgAspect img⌋).toNat, ts.2) := by
    unfold cropScaledSize
    rw [if_pos hgt, pyTrunc_of_nonneg harg]
  have hthQ : (0 : ℚ) < (ts.2 : ℚ) := by
    have := Nat.pos_of_ne_zero hth
    exact_mod_cast this
  have hlt : (ts.1 : ℚ) < (ts.2 : ℚ) * imgAspect img := by
    have h1 : (ts.1 : ℚ) / (ts.2 : ℚ) < imgAspect img := hgt
    rw [div_lt_iff₀ hthQ] at h1
    calc (ts.1 : ℚ) < imgAspect img * (ts.2 : ℚ) := h1
      _ = (ts.2 : ℚ) * imgAspect img := mul_comm _ _
  have hfl : (ts.1 : ℤ) ≤ ⌊(ts.2 : ℚ) * imgAspect img⌋ :=
    Int.le_floor.mpr (le_of_lt hlt)
  have hfl0 : 0 ≤ ⌊(ts.2 : ℚ) * imgAspect img⌋ := Int.floor_nonneg.mpr harg
  have hnw : (((⌊(ts.2 : ℚ) * imgAspect img⌋).toNat : ℤ)) = ⌊(ts.2 : ℚ) * imgAspect img⌋ :=
    Int.toNat_of_nonneg hfl0
  have hnwge : (ts.1 : ℤ) ≤ (((cropScaledSize img ts).1 : ℕ) : ℤ) := by
    rw [hsz]
    dsimp only
    rw [hnw]
    exact hfl
  have hbox : cropBox img ts =
      (Int.fdiv (((cropScaledSize img ts).1 : ℤ) - (ts.1 : ℤ)) 2, 0,
       Int.fdiv (((cropScaledSize img ts).1 : ℤ) - (ts.1 : ℤ)) 2 + (ts.1 : ℤ),
       (ts.2 : ℤ)) := by
    unfold cropBox
    rw [if_pos hgt]
  have hx : 0 ≤ ((cropScaledSize img ts).1 : ℤ) - (ts.1 : ℤ) := by omega
  have hfd : Int.fdiv (((cropScaledSize img ts).1 : ℤ) - (ts.1 : ℤ)) 2
      = (((cropScaledSize img ts).1 : ℤ) - (ts.1 : ℤ)) / 2 :=
    Int.fdiv_eq_ediv _ (by norm_num)
  refine ⟨hsz, hnwge, ?_, ?_, ?_, ?_, ?_⟩
  · unfold cropTopMargin
    rw [hbox]
  · unfold cropBottomMargin
    rw [hbox, hsz]
    dsimp only
    omega
  · unfold cropLeftMargin
    rw [hbox]
    dsimp only
    rw [hfd]
    omega
  · unfold cropLeftMargin cropRightMargin
    rw [hbox]
    dsimp only
    ring
  · unfold cropLeftMargin cropRightMargin
    rw [hbox]
    dsimp only
    rw [hfd]
    omega

/-- Branch `img_ratio <= target_ratio` of crop mode: the image is scaled to
the target width, its scaled height is at least the target height, only the
height is cropped, and the crop is vertically centered with the extra pixel
(if any) at the bottom. -/
lemma crop_branchB_facts (img : PILImage) (ts : Nat × Nat)
    (hw : img.width ≠ 0) (hh : img.height ≠ 0) (hth : ts.2 ≠ 0)
    (hle : imgAspect img ≤ targetAspect ts) :
    cropScaledSize img ts = (ts.1, (⌊(ts.1 : ℚ) / imgAspect img⌋).toNat)
    ∧ (ts.2 : ℤ) ≤ ((cropScaledSize img ts).2 : ℤ)
    ∧ cropLeftMargin img ts = 0 ∧ cropRightMargin img ts = 0
    ∧ 0 ≤ cropTopMargin img ts
    ∧ cropTopMargin img ts + cropBottomMargin img ts
        = ((cropScaledSize img ts).2 : ℤ) - (ts.2 : ℤ)
    ∧ (cropBottomMargin img ts = cropTopMargin img ts ∨
       cropBottomMargin img ts = cropTopMargin img ts + 1) := by
  have hng : ¬ imgAspect img > targetAspect ts := not_lt.mpr hle
  have hir : (0 : ℚ) < imgAspect img := imgAspect_pos hw hh
  have harg : 0 ≤ (ts.1 : ℚ) / imgAspect img :=
    div_nonneg (by positivity) (le_of_lt hir)
  have hsz : cropScaledSize img ts = (ts.1, (⌊(ts.1 : ℚ) / imgAspect img⌋).toNat) := by
    unfold cropScaledSize
    rw [if_neg hng, pyTrunc_of_nonneg harg]
  have hthQ : (0 : ℚ) < (ts.2 : ℚ) := by
    have := Nat.pos_of_ne_zero hth
    exact_mod_cast this
  have hle2 : (ts.2 : ℚ) ≤ (ts.1 : ℚ) / imgAspect img := by
    rw [le_div_iff₀ hir]
    have h1 : imgAspect img * (ts.2 : ℚ) ≤ ((ts.1 : ℚ) / (ts.2 : ℚ)) * (ts.2 : ℚ) :=
      mul_le_mul_of_nonneg_right hle (le_of_lt hthQ)
    rw [div_mul_cancel₀ _ (ne_of_gt hthQ)] at h1
    calc (ts.2 : ℚ) * imgAspect img = imgAspect img * (ts.2 : ℚ) := mul_comm _ _
      _ ≤ (ts.1 : ℚ) := h1
  have hfl : (ts.2 : ℤ) ≤ ⌊(ts.1 : ℚ) / imgAspect img⌋ := Int.le_floor.mpr hle2
  have hfl0 : 0 ≤ ⌊(ts.1 : ℚ) / imgAspect img⌋ := Int.floor_nonneg.mpr harg
  have hnhge : (ts.2 : ℤ) ≤ (((cropScaledSize img ts).2 : ℕ) : ℤ) := by
    rw [hsz]
    dsimp only
    rw [Int.toNat_of_nonneg hfl0]
    exact hfl
  have hbox : cropBox img ts =
      (0, Int.fdiv (((cropScaledSize img ts).2 : ℤ) - (ts.2 : ℤ)) 2, (ts.1 : ℤ),
       Int.fdiv (((cropScaledSize img ts).2 : ℤ) - (ts.2 : ℤ)) 2 + (ts.2 : ℤ)) := by
    unfold cropBox
    rw [if_neg hng]
  have hx : 0 ≤ ((cropScaledSize img ts).2 : ℤ) - (ts.2 : ℤ) := by omega
  have hfd : Int.fdiv (((cropScaledSize img ts).2 : ℤ) - (ts.2 : ℤ)) 2
      = (((cropScaledSize img ts).2 : ℤ) - (ts.2 : ℤ)) / 2 :=
    Int.fdiv_eq_ediv _ (by norm_num)
  refine ⟨hsz, hnhge, ?_, ?_, ?_, ?_, ?_⟩
  · unfold cropLeftMargin
    rw [hbox]
  · unfold cropRightMargin
    rw [hbox, hsz]
    dsimp only
    omega
  · unfold cropTopMargin
    rw [hbox]
    dsimp only
    rw [hfd]
    omega
  · unfold cropTopMargin cropBottomMargin
    rw [hbox]
    dsimp only
    ring
  · unfold cropTopMargin cropBottomMargin
    rw [hbox]
    dsimp only
    rw [hfd]
    omega

/-! ### Claim theorems -/

/-- C1: In crop mode, `resize_image` follows the two-branch algorithm.  If
the source aspect ratio (width/height) strictly exceeds the target aspect
ratio, the image is scaled so its height equals the target height (with a
scaled width at least the target width) and the width is then center-cropped
down to the target width, the extra pixel (if any) trimmed from the right;
if the source aspect ratio is less than or equal to the target aspect ratio,
the image is scaled so its width equals the target width and the height is
center-cropped down to the target height, the extra pixel (if any) trimmed
from the bottom. -/
theorem c1_crop_mode_two_branch (img : PILImage) (ts : Nat × Nat)
    (hw : img.width ≠ 0) (hh : img.height ≠ 0) (hth : ts.2 ≠ 0) :
    (imgAspect img > targetAspect ts →
      (cropScaledSize img ts).2 = ts.2
      ∧ (ts.1 : ℤ) ≤ ((cropScaledSize img ts).1 : ℤ)
      ∧ (cropModeImage img ts).width = ts.1
      ∧ (cropModeImage img ts).height = ts.2
      ∧ cropTopMargin img ts = 0 ∧ cropBottomMargin img ts = 0
      ∧ 0 ≤ cropLeftMargin img ts
      ∧ cropLeftMargin img ts + cropRightMargin img ts
          = ((cropScaledSize img ts).1 : ℤ) - (ts.1 : ℤ)
      ∧ (cropRightMargin img ts = cropLeftMargin img ts ∨
         cropRightMargin img ts = cropLeftMargin img ts + 1))
    ∧ (imgAspect img ≤ targetAspect ts →
      (cropScaledSize img ts).1 = ts.1
      ∧ (ts.2 : ℤ) ≤ ((cropScaledSize img ts).2 : ℤ)
      ∧ (cropModeImage img ts).width = ts.1
      ∧ (cropModeImage img ts).height = ts.2
      ∧ cropLeftMargin img ts = 0 ∧ cropRightMargin img ts = 0
      ∧ 0 ≤ cropTopMargin img ts
      ∧ cropTopMargin img ts + cropBottomMargin img ts
          = ((cropScaledSize img ts).2 : ℤ) - (ts.2 : ℤ)
      ∧ (cropBottomMargin img ts = cropTopMargin img ts ∨
         cropBottomMargin img ts = cropTopMargin img ts + 1)) := by
  constructor
  · intro hgt
    obtain ⟨hsz, hge, h1, h2, h3, h4, h5⟩ := crop_branchA_facts img ts hth hgt
    refine ⟨by rw [hsz], hge, ?_, ?_, h1, h2, h3, h4, h5⟩
    · rw [cropModeImage_spec]
    · rw [cropModeImage_spec]
  · intro hle
    obtain ⟨hsz, hge, h1, h2, h3, h4, h5⟩ := crop_branchB_facts img ts hw hh hth hle
    refine ⟨by rw [hsz], hge, ?_, ?_, h1, h2, h3, h4, h5⟩
    · rw [cropModeImage_spec]
    · rw [cropModeImage_spec]

/-- C1 witness: a 4×2 image against a 2×2 target takes the wider-than-target
branch and is scaled to height 2. -/
theorem c1_crop_mode_two_branch_witness :
    (cropScaledSize ⟨4, 2, "RGB"⟩ (2, 2)).2 = 2 :=
  ((c1_crop_mode_two_branch ⟨4, 2, "RGB"⟩ (2, 2) (by decide) (by decide)
      (by decide)).1 (by with_unfolding_all decide)).1

/-- C2: for every readable image and positive target size, the output file
written by `resize_image` in crop mode has dimensions exactly equal to the
target size, in both aspect-ratio branches, and the crop is centered with at
most a one-pixel off-by-one from integer division, only on the right/bottom
side. -/
theorem c2_crop_output_exact_size (fs : FS) (inp out : String) (ts : Nat × Nat)
    (qlt : Nat) (img : PILImage) (fmt : String) (q : Option Nat)
    (hread : fs inp = some (Entry.file (FileData.image img fmt q)))
    (hw : img.width ≠ 0) (hh : img.height ≠ 0) (hth : ts.2 ≠ 0) :
    (resize_image fs inp out ts qlt true).1 out
      = some (Entry.file (FileData.image ⟨ts.1, ts.2, convertMode img.mode⟩
          (savedFormat out) (savedQuality out qlt)))
    ∧ 0 ≤ cropLeftMargin img ts ∧ 0 ≤ cropTopMargin img ts
    ∧ (cropRightMargin img ts = cropLeftMargin img ts ∨
       cropRightMargin img ts = cropLeftMargin img ts + 1)
    ∧ (cropBottomMargin img ts = cropTopMargin img ts ∨
       cropBottomMargin img ts = cropTopMargin img ts + 1) := by
  refine ⟨?_, ?_⟩
  · rw [resize_image_readable out ts qlt hread hw hh hth]
    dsimp only
    unfold saveImg
    rw [fsUpdate_self, cropModeImage_spec, convertPIL_mode]
  · by_cases hgt : imgAspect img > targetAspect ts
    · obtain ⟨_, _, htop, hbot, hleft, _, h5⟩ := crop_branchA_facts img ts hth hgt
      exact ⟨hleft, htop.symm.le, h5, Or.inl (hbot.trans htop.symm)⟩
    · obtain ⟨_, _, hleft0, hright0, htop, _, h5⟩ :=
        crop_branchB_facts img ts hw hh hth (not_lt.mp hgt)
      exact ⟨hleft0.ge, htop, Or.inl (hright0.trans hleft0.symm), h5⟩

/-- C2 witness: a concrete 4×2 RGB image resized to 2×2 yields an output file
of exactly 2×2. -/
theorem c2_crop_output_exact_size_witness :
    (resize_image
        (fun p => if p = "i.png" then
          some (Entry.file (FileData.image ⟨4, 2, "RGB"⟩ "PNG" none)) else none)
        "i.png" "o.png" (2, 2) 85 true).1 "o.png"
      = some (Entry.file (FileData.image ⟨2, 2, convertMode "RGB"⟩
          (savedFormat "o.png") (savedQuality "o.png" 85))) :=
  (c2_crop_output_exact_size
    (fun p => if p = "i.png" then
      some (Entry.file (FileData.image ⟨4, 2, "RGB"⟩ "PNG" none)) else none)
    "i.png" "o.png" (2, 2) 85 ⟨4, 2, "RGB"⟩ "PNG" none
    (by decide) (by decide) (by decide) (by decide)).1

lemma postGetD_absent {request : HttpRequest} {k dflt : String}
    (h : ∀ kv ∈ request.post, kv.1 ≠ k) : postGetD request k dflt = dflt := by
  unfold postGetD
  rw [List.filter_eq_nil_iff.mpr (fun kv hkv => by simpa using h kv hkv)]
  rfl

/-- C3: every POST request to the contact view persists exactly one
`ContactSubmission` record — appended to the store, with the empty string
for each of the four fields that is absent from the request — and returns
the home page. -/
theorem c3_contact_post_empty_defaults (db : List Contact) (request : HttpRequest)
    (hpost : request.method = "POST") :
    ∃ rec : Contact,
      contact db request = (db ++ [rec], "home.html")
      ∧ ((∀ kv ∈ request.post, kv.1 ≠ "name") → rec.name = "")
      ∧ ((∀ kv ∈ request.post, kv.1 ≠ "email") → rec.email = "")
      ∧ ((∀ kv ∈ request.post, kv.1 ≠ "subject") → rec.subject = "")
      ∧ ((∀ kv ∈ request.post, kv.1 ≠ "message") → rec.message = "") := by
  refine ⟨⟨postGetD request "name" "", postGetD request "email" "",
    postGetD request "subject" "", postGetD request "message" ""⟩, ?_, ?_, ?_, ?_, ?_⟩
  · unfold contact
    rw [if_pos hpost]
  · intro h
    exact postGetD_absent h
  · intro h
    exact postGetD_absent h
  · intro h
    exact postGetD_absent h
  · intro h
    exact postGetD_absent h

/-- C3 witness: a POST with no fields at all stores one record of four empty
strings and renders the home page. -/
theorem c3_contact_post_empty_defaults_witness :
    ∃ rec : Contact,
      contact [] ⟨"POST", []⟩ = ([] ++ [rec], "home.html")
      ∧ ((∀ kv ∈ ([] : List (String × String)), kv.1 ≠ "name") → rec.name = "")
      ∧ ((∀ kv ∈ ([] : List (String × String)), kv.1 ≠ "email") → rec.email = "")
      ∧ ((∀ kv ∈ ([] : List (String × String)), kv.1 ≠ "subject") → rec.subject = "")
      ∧ ((∀ kv ∈ ([] : List (String × String)), kv.1 ≠ "message") → rec.message = "") :=
  c3_contact_post_empty_defaults [] ⟨"POST", []⟩ rfl

/-- C6: pointing the tool at a non-existent directory prints a user-facing
error, exits with status 1 and leaves the filesystem untouched (in
particular no backup_original/, preview/ or slider/ directory is created);
an existing directory always exits with status 0. -/
theorem c6_missing_dir_exits_nonzero (fs : FS) (args : CliArgs) (listing : List String) :
    (pathExists fs args.portfolio_dir = false →
      (main_py fs args listing).1 = 1
      ∧ (∀ p, (main_py fs args listing).2.1 p = fs p)
      ∧ ("Error: Directory " ++ "'" ++ args.portfolio_dir ++ "'" ++ " does not exist!")
          ∈ (main_py fs args listing).2.2)
    ∧ (pathExists fs args.portfolio_dir = true → (main_py fs args listing).1 = 0) := by
  constructor
  · intro h
    unfold main_py
    rw [if_neg (by rw [h]; exact Bool.false_ne_true)]
    exact ⟨rfl, fun p => rfl, List.mem_cons_self _ _⟩
  · intro h
    unfold main_py
    rw [if_pos h]

/-- C6 witness: on an empty filesystem the tool exits with status 1 and
creates nothing. -/
theorem c6_missing_dir_exits_nonzero_witness :
    (main_py (fun _ => none) ⟨"static/img/portfolio", false⟩ []).1 = 1
    ∧ (∀ p, (main_py (fun _ => none) ⟨"static/img/portfolio", false⟩ []).2.1 p
        = (fun (_ : String) => (none : Option Entry)) p) :=
  ⟨((c6_missing_dir_exits_nonzero (fun _ => none) ⟨"static/img/portfolio", false⟩ []).1
      (by decide)).1,
   ((c6_missing_dir_exits_nonzero (fun _ => none) ⟨"static/img/portfolio", false⟩ []).1
      (by decide)).2.1⟩

/-- C7 counterexample: a grayscale (mode "L") image is *not* converted to
RGB by `resize_image`: the saved output keeps mode "L", refuting the claim
that every non-RGB mode is converted. -/
theorem c7_mode_counterexample :
    (resize_image
        (fun p => if p = "in.png" then
          some (Entry.file (FileData.image ⟨10, 10, "L"⟩ "PNG" none)) else none)
        "in.png" "out.png" (2, 2) 85 true).1 "out.png"
      = some (Entry.file (FileData.image ⟨2, 2, "L"⟩ "PNG" none))
    ∧ ("L" : String) ≠ "RGB" := by
  constructor
  · with_unfolding_all decide
  · decide

/-- C7 amended: `resize_image` converts exactly the modes RGBA, LA and P to
RGB before saving; an image in any other mode (RGB itself, but also e.g. L
or CMYK) is saved with its mode unchanged. -/
theorem c7_amended_mode_conversion (fs : FS) (inp out : String) (ts : Nat × Nat)
    (qlt : Nat) (img : PILImage) (fmt : String) (q : Option Nat)
    (hread : fs inp = some (Entry.file (FileData.image img fmt q)))
    (hw : img.width ≠ 0) (hh : img.height ≠ 0) (hth : ts.2 ≠ 0) :
    ∃ img1, (resize_image fs inp out ts qlt true).1 out
        = some (Entry.file (FileData.image img1 (savedFormat out) (savedQuality out qlt)))
      ∧ img1.mode = (if img.mode ∈ ["RGBA", "LA", "P"] then "RGB" else img.mode) := by
  rw [resize_image_readable out ts qlt hread hw hh hth]
  dsimp only
  refine ⟨cropModeImage (convertPIL img) ts, ?_, ?_⟩
  · unfold saveImg
    rw [fsUpdate_self]
  · rw [cropModeImage_spec]
    exact convertPIL_mode img

/-- C7 amended witness: an RGBA input is converted to RGB before saving. -/
theorem c7_amended_mode_conversion_witness :
    ∃ img1, (resize_image
        (fun p => if p = "in.png" then
          some (Entry.file (FileData.image ⟨10, 10, "RGBA"⟩ "PNG" none)) else none)
        "in.png" "out.png" (2, 2) 85 true).1 "out.png"
        = some (Entry.file (FileData.image img1 (savedFormat "out.png")
            (savedQuality "out.png" 85)))
      ∧ img1.mode = (if ("RGBA" : String) ∈ ["RGBA", "LA", "P"] then "RGB"
          else ("RGBA" : String)) :=
  c7_amended_mode_conversion
    (fun p => if p = "in.png" then
      some (Entry.file (FileData.image ⟨10, 10, "RGBA"⟩ "PNG" none)) else none)
    "in.png" "out.png" (2, 2) 85 ⟨10, 10, "RGBA"⟩ "PNG" none
    (by decide) (by decide) (by decide) (by decide)

/-- C9: `resize_image` never propagates an exception to its caller: it only
ever writes the requested output path; whenever its body raises, the
exception is caught, the error line is printed and the function returns with
the filesystem unchanged; in particular a nonexistent input path or an
unreadable image always takes this caught-error path. -/
theorem c9_resize_image_catches_all (fs : FS) (inp out : String) (ts : Nat × Nat)
    (qlt : Nat) (cm : Bool) :
    (∀ p, p ≠ out → (resize_image fs inp out ts qlt cm).1 p = fs p)
    ∧ (∀ e, resize_image_body fs inp out ts qlt cm = Except.error e →
        resize_image fs inp out ts qlt cm = (fs, [errMsg inp e]))
    ∧ (fs inp = none →
        ∃ e, resize_image_body fs inp out ts qlt cm = Except.error e)
    ∧ (∀ k, fs inp = some (Entry.file (FileData.corrupt k)) →
        ∃ e, resize_image_body fs inp out ts qlt cm = Except.error e) :=
  ⟨fun _ hp => resize_image_frame fs inp ts qlt cm hp,
   fun _ he => resize_image_error he,
   fun h => ⟨_, resize_image_body_notfound h out ts qlt cm⟩,
   fun _ h => ⟨_, resize_image_body_corrupt h out ts qlt cm⟩⟩

/-- C9 witness: opening a nonexistent path raises inside the body, and
`resize_image` returns normally with the filesystem unchanged. -/
theorem c9_resize_image_catches_all_witness :
    (∃ e, resize_image_body (fun _ => none) "gone.png" "out.png" (2, 2) 85 true
        = Except.error e)
    ∧ (resize_image (fun _ => none) "gone.png" "out.png" (2, 2) 85 true).1 "x"
        = (fun (_ : String) => (none : Option Entry)) "x" :=
  ⟨(c9_resize_image_catches_all (fun _ => none) "gone.png" "out.png" (2, 2) 85 true).2.2.1
      rfl,
   (c9_resize_image_catches_all (fun _ => none) "gone.png" "out.png" (2, 2) 85 true).1
      "x" (by decide)⟩

/-- C10: per-derivative failure isolation in the loop body: on a file whose
processing fails (a corrupt file), the preview failure is caught inside the
first `resize_image` call and the slider derivative is still attempted — the
loop body returns normally having printed one caught-error line for the
preview attempt and then one for the slider attempt. -/
theorem c10_preview_failure_still_attempts_slider (d c : String) (k : Nat) (b : Bool)
    (fs : FS) (log : List String)
    (hread : fs (joinPath d c) = some (Entry.file (FileData.corrupt k)))
    (hext : pyLower (splitext c).2 ∈ image_extensions)
    (hslash : '/' ∉ c.data) :
    ∃ bl, (processFile d b (fs, log) c).2 =
      log ++ bl ++
        [errMsg (joinPath d c) ("cannot identify image file " ++ joinPath d c),
         errMsg (joinPath d c) ("cannot identify image file " ++ joinPath d c)] :=
  (processFile_corrupt b (fs, log) hread hext hslash).2

/-- C10 witness: a concrete corrupt file logs a caught error for the preview
attempt and then another for the slider attempt. -/
theorem c10_preview_failure_still_attempts_slider_witness :
    ∃ bl, (processFile "pics" false
        ((fun p => if p = "pics/bad.jpg" then
          some (Entry.file (FileData.corrupt 0)) else none), []) "bad.jpg").2 =
      [] ++ bl ++
        [errMsg (joinPath "pics" "bad.jpg")
          ("cannot identify image file " ++ joinPath "pics" "bad.jpg"),
         errMsg (joinPath "pics" "bad.jpg")
          ("cannot identify image file " ++ joinPath "pics" "bad.jpg")] :=
  c10_preview_failure_still_attempts_slider "pics" "bad.jpg" 0 false
    (fun p => if p = "pics/bad.jpg" then
      some (Entry.file (FileData.corrupt 0)) else none) []
    (by decide) (by decide) (by decide)

/-- C8: for every recognized, readable image file the batch loop body
produces exactly two derivatives: an 800×600 preview written to
`<dir>/preview/<base>_preview<ext>` and a 1200×800 slider written to
`<dir>/slider/<base>_slider<ext>` (each keeping the original extension, as
encoded in `previewPath`/`sliderPath`), and writes to no other path apart
from possibly the file's own backup copy. -/
theorem c8_exactly_two_derivatives (d f : String) (img : PILImage) (fmt : String)
    (q : Option Nat) (b : Bool) (fs : FS) (log : List String)
    (hread : fs (joinPath d f) = some (Entry.file (FileData.image img fmt q)))
    (hext : pyLower (splitext f).2 ∈ image_extensions)
    (hslash : '/' ∉ f.data)
    (hw : img.width ≠ 0) (hh : img.height ≠ 0) :
    (processFile d b (fs, log) f).1 (previewPath d f)
        = some (Entry.file (FileData.image ⟨800, 600, convertMode img.mode⟩
            (savedFormat (previewPath d f)) (savedQuality (previewPath d f) 85)))
    ∧ (processFile d b (fs, log) f).1 (sliderPath d f)
        = some (Entry.file (FileData.image ⟨1200, 800, convertMode img.mode⟩
            (savedFormat (sliderPath d f)) (savedQuality (sliderPath d f) 85)))
    ∧ ∀ p, p ≠ previewPath d f → p ≠ sliderPath d f → p ≠ backupPath d f →
        (processFile d b (fs, log) f).1 p = fs p := by
  obtain ⟨c1, c2, _⟩ := processFile_readable b (fs, log) hread hext hslash hw hh
  exact ⟨c1, c2, fun p h1 h2 h3 => processFile_frame (fun _ => ⟨h3, h1, h2⟩)⟩

/-- C8 witness: a 1600×800 image named a.png yields exactly the 800×600
preview and the 1200×800 slider. -/
theorem c8_exactly_two_derivatives_witness :
    (processFile "pics" true
        ((fun p => if p = "pics/a.png" then
          some (Entry.file (FileData.image ⟨1600, 800, "RGB"⟩ "PNG" none)) else none),
         []) "a.png").1 (previewPath "pics" "a.png")
      = some (Entry.file (FileData.image ⟨800, 600, convertMode "RGB"⟩
          (savedFormat (previewPath "pics" "a.png"))
          (savedQuality (previewPath "pics" "a.png") 85))) :=
  (c8_exactly_two_derivatives "pics" "a.png" ⟨1600, 800, "RGB"⟩ "PNG" none true
    (fun p => if p = "pics/a.png" then
      some (Entry.file (FileData.image ⟨1600, 800, "RGB"⟩ "PNG" none)) else none)
    [] (by decide) (by decide) (by decide) (by decide) (by decide)).1

/-- The directory-creation prelude of the batch only touches the three
directory paths it creates. -/
lemma prelude_fs_frame {fs : FS} {d : String} (b : Bool) {p : String}
    (h1 : p ≠ joinPath d "backup_original") (h2 : p ≠ joinPath d "preview")
    (h3 : p ≠ joinPath d "slider") :
    makedirs (makedirs (if b = true then makedirs fs (joinPath d "backup_original") else fs)
      (joinPath d "preview")) (joinPath d "slider") p = fs p := by
  rw [makedirs_frame _ h3, makedirs_frame _ h2]
  by_cases hb : b = true
  · rw [if_pos hb, makedirs_frame _ h1]
  · rw [if_neg hb]

/-- The input path of a recognized file differs from each of the three
created directory paths (its name contains a dot, theirs do not). -/
lemma input_ne_dirs {d f : String} (hext : pyLower (splitext f).2 ∈ image_extensions) :
    joinPath d f ≠ joinPath d "backup_original"
    ∧ joinPath d f ≠ joinPath d "preview"
    ∧ joinPath d f ≠ joinPath d "slider" :=
  ⟨input_ne_dirPath d (dot_mem_of_ext hext) (by decide),
   input_ne_dirPath d (dot_mem_of_ext hext) (by decide),
   input_ne_dirPath d (dot_mem_of_ext hext) (by decide)⟩

/-- C4: a batch run over a directory holding a corrupt file followed by a
valid image file completes with the corrupt file's failure caught and logged
(the caught PIL error line appears in the printed output) while the valid
file's preview and slider outputs are still produced. -/
theorem c4_corrupt_file_logged_batch_continues
    (fs : FS) (d : String) (b : Bool) (c v : String) (k : Nat)
    (img : PILImage) (fmt : String) (q : Option Nat)
    (hslashc : '/' ∉ c.data) (hslashv : '/' ∉ v.data)
    (hextc : pyLower (splitext c).2 ∈ image_extensions)
    (hextv : pyLower (splitext v).2 ∈ image_extensions)
    (hreadc : fs (joinPath d c) = some (Entry.file (FileData.corrupt k)))
    (hreadv : fs (joinPath d v) = some (Entry.file (FileData.image img fmt q)))
    (hw : img.width ≠ 0) (hh : img.height ≠ 0) :
    (process_portfolio_images fs d [c, v] b).1 (previewPath d v)
        = some (Entry.file (FileData.image ⟨800, 600, convertMode img.mode⟩
            (savedFormat (previewPath d v)) (savedQuality (previewPath d v) 85)))
    ∧ (process_portfolio_images fs d [c, v] b).1 (sliderPath d v)
        = some (Entry.file (FileData.image ⟨1200, 800, convertMode img.mode⟩
            (savedFormat (sliderPath d v)) (savedQuality (sliderPath d v) 85)))
    ∧ errMsg (joinPath d c) ("cannot identify image file " ++ joinPath d c)
        ∈ (process_portfolio_images fs d [c, v] b).2 := by
  rw [process_portfolio_eq]
  simp only [List.foldl_cons, List.foldl_nil]
  obtain ⟨hc1, hc2, hc3⟩ := input_ne_dirs hextc
  obtain ⟨hv1, hv2, hv3⟩ := input_ne_dirs hextv
  set s0 : FS × List String :=
    (makedirs (makedirs
        (if b = true then makedirs fs (joinPath d "backup_original") else fs)
        (joinPath d "preview")) (joinPath d "slider"),
     (if b = true then
        ["Backup directory created: " ++ joinPath d "backup_original"] else []) ++
       ["Preview directory: " ++ joinPath d "preview",
        "Slider directory: " ++ joinPath d "slider"]) with hs0def
  have hs0c : s0.1 (joinPath d c) = some (Entry.file (FileData.corrupt k)) := by
    rw [hs0def]
    show makedirs _ _ (joinPath d c) = _
    rw [prelude_fs_frame b hc1 hc2 hc3]
    exact hreadc
  have hs0v : s0.1 (joinPath d v) = some (Entry.file (FileData.image img fmt q)) := by
    rw [hs0def]
    show makedirs _ _ (joinPath d v) = _
    rw [prelude_fs_frame b hv1 hv2 hv3]
    exact hreadv
  obtain ⟨hcframe, bl, hclog⟩ := processFile_corrupt b s0 hs0c hextc hslashc
  have hs1v : (processFile d b s0 c).1 (joinPath d v)
      = some (Entry.file (FileData.image img fmt q)) := by
    rw [hcframe _ (input_ne_backup d c hslashv)]
    exact hs0v
  obtain ⟨cv1, cv2, _⟩ := processFile_readable b _ hs1v hextv hslashv hw hh
  refine ⟨cv1, cv2, ?_⟩
  obtain ⟨suf, hsuf⟩ := processFile_log_prefix d b (processFile d b s0 c) v
  rw [hsuf, hclog]
  simp

/-- C4 witness: with a corrupt `bad.jpg` and a valid 1600×800 `a.png` in the
directory, the batch still produces the valid file's preview. -/
theorem c4_corrupt_file_logged_batch_continues_witness :
    (process_portfolio_images
        (fun p => if p = "pics/bad.jpg" then some (Entry.file (FileData.corrupt 0))
          else if p = "pics/a.png" then
            some (Entry.file (FileData.image ⟨1600, 800, "RGB"⟩ "PNG" none))
          else none)
        "pics" ["bad.jpg", "a.png"] true).1 (previewPath "pics" "a.png")
      = some (Entry.file (FileData.image ⟨800, 600, convertMode "RGB"⟩
          (savedFormat (previewPath "pics" "a.png"))
          (savedQuality (previewPath "pics" "a.png") 85))) :=
  (c4_corrupt_file_logged_batch_continues
    (fun p => if p = "pics/bad.jpg" then some (Entry.file (FileData.corrupt 0))
      else if p = "pics/a.png" then
        some (Entry.file (FileData.image ⟨1600, 800, "RGB"⟩ "PNG" none))
      else none)
    "pics" true "bad.jpg" "a.png" 0 ⟨1600, 800, "RGB"⟩ "PNG" none
    (by decide) (by decide) (by decide) (by decide) (by decide) (by decide)
    (by decide) (by decide)).1

/-- C5: with backup enabled, re-running the batch over a listing containing
`f` when a backup of `f` already exists leaves that backup entry exactly as
it was (backups are only created when absent, never overwritten), while the
preview and slider derivatives of `f` are (re)written with freshly computed
contents regardless of what was previously stored at those paths. -/
theorem c5_existing_backup_preserved
    (fs : FS) (d : String) (listing : List String) (f : String)
    (img : PILImage) (fmt : String) (q : Option Nat) (orig : Entry)
    (hnodup : listing.Nodup) (hmem : f ∈ listing)
    (hslash : '/' ∉ f.data)
    (hext : pyLower (splitext f).2 ∈ image_extensions)
    (hread : fs (joinPath d f) = some (Entry.file (FileData.image img fmt q)))
    (hw : img.width ≠ 0) (hh : img.height ≠ 0)
    (hbak : fs (backupPath d f) = some orig) :
    (process_portfolio_images fs d listing true).1 (backupPath d f) = some orig
    ∧ (process_portfolio_images fs d listing true).1 (previewPath d f)
        = some (Entry.file (FileData.image ⟨800, 600, convertMode img.mode⟩
            (savedFormat (previewPath d f)) (savedQuality (previewPath d f) 85)))
    ∧ (process_portfolio_images fs d listing true).1 (sliderPath d f)
        = some (Entry.file (FileData.image ⟨1200, 800, convertMode img.mode⟩
            (savedFormat (sliderPath d f)) (savedQuality (sliderPath d f) 85))) := by
  obtain ⟨l1, l2, rfl⟩ := List.append_of_mem hmem
  have hfl1 : f ∉ l1 := by
    intro hf
    rcases List.nodup_append.mp hnodup with ⟨-, -, hdis⟩
    exact hdis hf (List.mem_cons_self f l2)
  have hfl2 : f ∉ l2 := by
    rcases List.nodup_append.mp hnodup with ⟨-, hcons, -⟩
    exact (List.nodup_cons.mp hcons).1
  rw [process_portfolio_eq, List.foldl_append, List.foldl_cons]
  set s0 : FS × List String :=
    (makedirs (makedirs
        (if true = true then makedirs fs (joinPath d "backup_original") else fs)
        (joinPath d "preview")) (joinPath d "slider"),
     (if true = true then
        ["Backup directory created: " ++ joinPath d "backup_original"] else []) ++
       ["Preview directory: " ++ joinPath d "preview",
        "Slider directory: " ++ joinPath d "slider"]) with hs0def
  obtain ⟨hf1, hf2, hf3⟩ := input_ne_dirs hext
  have hs0inp : s0.1 (joinPath d f) = some (Entry.file (FileData.image img fmt q)) := by
    rw [hs0def]
    show makedirs _ _ (joinPath d f) = _
    rw [prelude_fs_frame true hf1 hf2 hf3]
    exact hread
  have hs0bak : s0.1 (backupPath d f) = some orig := by
    rw [hs0def]
    show makedirs _ _ (joinPath (joinPath d "backup_original") f) = _
    rw [prelude_fs_frame true
      (dirPath_ne_subPath_len d "backup_original" f).symm
      (@dirPath_ne_subPath_head d "preview" "backup_original" f 'p' 'b'
        (by decide) (by decide) (by decide)).symm
      (@dirPath_ne_subPath_head d "slider" "backup_original" f 's' 'b'
        (by decide) (by decide) (by decide)).symm]
    exact hbak
  have hl1cond_inp : ∀ g ∈ l1, pyLower (splitext g).2 ∈ image_extensions →
      joinPath d f ≠ backupPath d g ∧ joinPath d f ≠ previewPath d g
        ∧ joinPath d f ≠ sliderPath d g :=
    fun g _ _ => ⟨input_ne_backup d g hslash, input_ne_preview d g hslash,
      input_ne_slider d g hslash⟩
  have hl1cond_bak : ∀ g ∈ l1, pyLower (splitext g).2 ∈ image_extensions →
      backupPath d f ≠ backupPath d g ∧ backupPath d f ≠ previewPath d g
        ∧ backupPath d f ≠ sliderPath d g := by
    intro g hg _
    refine ⟨fun e => hfl1 ?_, (preview_ne_backup d g f).symm,
      (slider_ne_backup d g f).symm⟩
    rw [backupPath_inj e]
    exact hg
  have hA_inp : (List.foldl (processFile d true) s0 l1).1 (joinPath d f)
      = some (Entry.file (FileData.image img fmt q)) := by
    rw [foldl_processFile_frame l1 s0 hl1cond_inp]
    exact hs0inp
  have hA_bak : (List.foldl (processFile d true) s0 l1).1 (backupPath d f)
      = some orig := by
    rw [foldl_processFile_frame l1 s0 hl1cond_bak]
    exact hs0bak
  obtain ⟨cf1, cf2, cf3⟩ :=
    processFile_readable true (List.foldl (processFile d true) s0 l1)
      hA_inp hext hslash hw hh
  have hB_bak := cf3 orig hA_bak
  have hl2cond_bak : ∀ g ∈ l2, pyLower (splitext g).2 ∈ image_extensions →
      backupPath d f ≠ backupPath d g ∧ backupPath d f ≠ previewPath d g
        ∧ backupPath d f ≠ sliderPath d g := by
    intro g hg _
    refine ⟨fun e => hfl2 ?_, (preview_ne_backup d g f).symm,
      (slider_ne_backup d g f).symm⟩
    rw [backupPath_inj e]
    exact hg
  have hl2cond_prev : ∀ g ∈ l2, pyLower (splitext g).2 ∈ image_extensions →
      previewPath d f ≠ backupPath d g ∧ previewPath d f ≠ previewPath d g
        ∧ previewPath d f ≠ sliderPath d g := by
    intro g hg hgext
    refine ⟨preview_ne_backup d f g, fun e => hfl2 ?_, preview_ne_slider d f g⟩
    rw [previewPath_inj hext hgext e]
    exact hg
  have hl2cond_slid : ∀ g ∈ l2, pyLower (splitext g).2 ∈ image_extensions →
      sliderPath d f ≠ backupPath d g ∧ sliderPath d f ≠ previewPath d g
        ∧ sliderPath d f ≠ sliderPath d g := by
    intro g hg hgext
    refine ⟨slider_ne_backup d f g, (preview_ne_slider d g f).symm, fun e => hfl2 ?_⟩
    rw [sliderPath_inj hext hgext e]
    exact hg
  refine ⟨?_, ?_, ?_⟩
  · rw [foldl_processFile_frame l2 _ hl2cond_bak]
    exact hB_bak
  · rw [foldl_processFile_frame l2 _ hl2cond_prev]
    exact cf1
  · rw [foldl_processFile_frame l2 _ hl2cond_slid]
    exact cf2

/-- C5 witness: re-running the batch over a directory whose backup of
`a.png` already holds some original bytes keeps that backup intact while
rewriting the derivatives. -/
theorem c5_existing_backup_preserved_witness :
    (process_portfolio_images
        (fun p => if p = "pics/a.png" then
            some (Entry.file (FileData.image ⟨1600, 800, "RGB"⟩ "PNG" none))
          else if p = "pics/backup_original/a.png" then
            some (Entry.file (FileData.corrupt 7))
          else none)
        "pics" ["a.png"] true).1 (backupPath "pics" "a.png")
      = some (Entry.file (FileData.corrupt 7)) :=
  (c5_existing_backup_preserved
    (fun p => if p = "pics/a.png" then
        some (Entry.file (FileData.image ⟨1600, 800, "RGB"⟩ "PNG" none))
      else if p = "pics/backup_original/a.png" then
        some (Entry.file (FileData.corrupt 7))
      else none)
    "pics" ["a.png"] "a.png" ⟨1600, 800, "RGB"⟩ "PNG" none
    (Entry.file (FileData.corrupt 7))
    (by decide) (by decide) (by decide) (by decide) (by decide) (by decide)
    (by decide) (by decide)).1
